import Mathlib

/-!
Verification of the logitracker-api-backend job lifecycle and coordinate
tracking subsystem.

The development shallowly embeds the Express controllers of the repository:

* `src/controllers/jobController.js` — `isWithinNepal`,
  `validateNepalCoordinates`, `createJob`, `getJobs`, `getJobById`,
  `updateStatus`;
* `src/controllers/userController.js` — `updateLiveCoordinate`,
  `getLiveCoordinate`;
* `src/models/job.model.js` — the registered Job schema: its `status`
  enum/default and its required-without-default paths, which decide whether a
  `save()` passes validation.

JavaScript numbers are modelled as rationals (`ℚ`); the MongoDB/Mongoose store
is modelled as an explicit record of documents with the behaviors the
controllers rely on: `findById`/`findByIdAndUpdate` cast the id (a malformed
ObjectId raises a CastError, modelled as `Except.error`), `save` applies schema
defaults and runs the schema validators, while the update operations do not run
schema validators (the Mongoose default for update paths).  Each controller is
a pure function from the store and the request data to an HTTP response and
the resulting store.
-/

namespace Logitracker

/-- A JavaScript value as it can occur in a request-body field that the
controllers feed to `parseFloat`: a (finite) number, a string, `null`, or an
absent field (`undefined`). -/
inductive JSVal where
  | num (q : ℚ)
  | str (s : String)
  | null
  | undefined
deriving DecidableEq, Repr

/-- Maximal run of decimal digits at the head of the input: accumulated value,
number of digits consumed, and the remaining input. -/
def readDigits : List Char → Nat → Nat × Nat × List Char
  | [], acc => (acc, 0, [])
  | c :: rest, acc =>
    if c.isDigit then
      let r := readDigits rest (10 * acc + (c.toNat - 48))
      (r.1, r.2.1 + 1, r.2.2)
    else (acc, 0, c :: rest)

/-- The exponent part of a JavaScript decimal literal (after the `e`/`E`):
optional sign followed by digits.  If no digits follow, the exponent part is
not part of the parsed prefix and contributes `0` (JS `parseFloat("3e")` is 3). -/
def readExp (cs : List Char) : Int :=
  match cs with
  | '+' :: r => let p := readDigits r 0; if p.2.1 = 0 then 0 else (p.1 : Int)
  | '-' :: r => let p := readDigits r 0; if p.2.1 = 0 then 0 else -(p.1 : Int)
  | _ => let p := readDigits cs 0; if p.2.1 = 0 then 0 else (p.1 : Int)

/-- JS whitespace accepted by `parseFloat` before the number. -/
def isJsSpace (c : Char) : Bool :=
  c = ' ' || c = '\t' || c = '\n' || c = '\r' || c = '\x0b' || c = '\x0c'

/-- JavaScript `parseFloat` on a string: skip leading whitespace, then parse
the longest prefix of the shape `[+-]? (digits [. digits?] | . digits)
([eE] [+-]? digits)?`; yield `none` (NaN) when no digit was read.  The
`Infinity` forms of `parseFloat` are modelled as `none`: an infinite value
lies outside every finite bounding box, so `isWithinNepal` is unaffected. -/
def parseFloatString (s : String) : Option ℚ :=
  let cs := s.toList.dropWhile isJsSpace
  let signAndRest : ℚ × List Char :=
    match cs with
    | '+' :: r => (1, r)
    | '-' :: r => (-1, r)
    | _ => (1, cs)
  let sign := signAndRest.1
  let p := readDigits signAndRest.2 0
  let ip := p.1
  let ilen := p.2.1
  let afterInt := p.2.2
  let fracAndRest : Nat × Nat × List Char :=
    match afterInt with
    | '.' :: r => readDigits r 0
    | _ => (0, 0, afterInt)
  let fp := fracAndRest.1
  let flen := fracAndRest.2.1
  let afterFrac :=
    match afterInt with
    | '.' :: _ => fracAndRest.2.2
    | _ => afterInt
  if ilen = 0 ∧ flen = 0 then none
  else
    let e : Int :=
      match afterFrac with
      | 'e' :: r => readExp r
      | 'E' :: r => readExp r
      | _ => 0
    some (sign * ((ip : ℚ) + (fp : ℚ) / (10 : ℚ) ^ flen) * (10 : ℚ) ^ e)

/-- JavaScript `parseFloat` applied to a request-body value.  A number is
returned unchanged (JS stringifies and reparses, the identity on finite
numbers); `null` and `undefined` stringify to non-numeric text and yield NaN,
modelled as `none`. -/
def parseFloat : JSVal → Option ℚ
  | .num q => some q
  | .str s => parseFloatString s
  | .null => none
  | .undefined => none

/-- `isWithinNepal` from `src/controllers/jobController.js`: parse both
coordinates with `parseFloat`, return `false` when either is NaN, otherwise
test the fixed Nepal bounding box with inclusive comparisons.  The source
literals 26.347, 30.447, 80.058, 88.201 are written as exact rationals
(`Rat.divInt n 1000`) so that the function evaluates by kernel reduction;
`bounds_are_the_source_literals` below checks they denote the same numbers. -/
def isWithinNepal (lat lon : JSVal) : Bool :=
  match parseFloat lat, parseFloat lon with
  | some latitude, some longitude =>
    decide (Rat.divInt 26347 1000 ≤ latitude) &&
    decide (latitude ≤ Rat.divInt 30447 1000) &&
    decide (Rat.divInt 80058 1000 ≤ longitude) &&
    decide (longitude ≤ Rat.divInt 88201 1000)
  | _, _ => false

/-! ## Data model

The canonical Job shape of the repository (the `driverInfo` / `pickupInfo` /
`dropoffInfo` shape written by `createJob`), with the `status` enum and
default of the Job schema (`src/models/job.model.js`, lines 5–10) and the
`timestamps: true` audit fields. -/

/-- `driverInfo` as submitted in a createJob body; the controller stores it
wholesale after validating `id` against the user directory. -/
structure DriverInfo where
  id : String
  name : String
  phone : String
deriving DecidableEq, Repr

/-- `pickupInfo` / `dropoffInfo` shape: contact fields plus the coordinates
fed to the geofence validator. -/
structure ContactPoint where
  name : String
  phone : String
  email : Option String
  latitude : JSVal
  longitude : JSVal
deriving DecidableEq, Repr

/-- A `{latitude, longitude}` pair as sent on the live-coordinate path. -/
structure CoordPair where
  latitude : JSVal
  longitude : JSVal
deriving DecidableEq, Repr

/-- `addOns` handling flags (informational only). -/
structure AddOns where
  fragileItems : Bool
  heavyItem : Bool
deriving DecidableEq, Repr

/-- The `status` enum of the Job schema (`src/models/job.model.js` lines 5–10):
note `cancelled` is absent. -/
def schemaStatusEnum : List String := ["pending", "in-transit", "delayed", "delivered"]

/-- The list `updateStatus` checks the incoming status against
(`src/controllers/jobController.js` line 250): it includes `cancelled`. -/
def updateStatusAllowed : List String :=
  ["pending", "in-transit", "delayed", "delivered", "cancelled"]

/-- A stored Job document. -/
structure Job where
  id : String
  driverInfo : DriverInfo
  pickupInfo : ContactPoint
  dropoffInfo : ContactPoint
  currentCoords : Option CoordPair
  status : String
  note : Option String
  addOns : Option AddOns
  isUrgent : Bool
  createdAt : Nat
  updatedAt : Nat
deriving DecidableEq, Repr

/-- A user directory entry; the core reads only `id` and `role`. -/
structure User where
  id : String
  role : String
deriving DecidableEq, Repr

/-- The document store: the user directory, the job collection, and the
counter from which fresh ObjectIds are derived. -/
structure Store where
  users : List User
  jobs : List Job
  nextId : Nat
deriving DecidableEq, Repr

/-! ## ObjectIds -/

/-- Is the character a hexadecimal digit? -/
def isHexDigitChar (c : Char) : Bool :=
  (('0' ≤ c) && (c ≤ '9')) || (('a' ≤ c) && (c ≤ 'f')) || (('A' ≤ c) && (c ≤ 'F'))

/-- One hexadecimal digit. -/
def hexChar (n : Nat) : Char :=
  match n % 16 with
  | 0 => '0' | 1 => '1' | 2 => '2' | 3 => '3' | 4 => '4' | 5 => '5'
  | 6 => '6' | 7 => '7' | 8 => '8' | 9 => '9' | 10 => 'a' | 11 => 'b'
  | 12 => 'c' | 13 => 'd' | 14 => 'e' | _ => 'f'

/-- `k` hexadecimal digits of `n`, most significant first. -/
def hexChars : Nat → Nat → List Char
  | 0, _ => []
  | k + 1, n => hexChars k (n / 16) ++ [hexChar n]

/-- The fresh 24-hex-character ObjectId assigned to the `n`-th created
document. -/
def freshObjectId (n : Nat) : String := String.mk (hexChars 24 n)

/-- `mongoose.Types.ObjectId.isValid` on a string: a 24-character hex string,
or any 12-character string (interpreted as 12 raw bytes). -/
def isValidObjectId (s : String) : Bool :=
  (s.length == 24 && s.toList.all isHexDigitChar) || s.length == 12

/-! ## Store operations (the Mongoose calls the controllers make) -/

/-- `Model.findById` (with `.lean()`): casting a malformed id raises a
`CastError`, modelled as `Except.error`; otherwise the first document with the
given `_id` (if any) is returned. -/
def findJobById (s : Store) (jobId : String) : Except Unit (Option Job) :=
  if isValidObjectId jobId then
    .ok (s.jobs.find? (fun j => j.id == jobId))
  else .error ()

/-- `Model.findByIdAndUpdate(jobId, upd, {new: true})`: casts the id
(CastError on a malformed one), applies the update to the matching document
WITHOUT running the schema validators (the Mongoose default on update paths),
and returns the updated document together with the updated collection. -/
def findJobByIdAndUpdate (s : Store) (jobId : String) (upd : Job → Job) :
    Except Unit (Option Job × Store) :=
  if isValidObjectId jobId then
    match s.jobs.find? (fun j => j.id == jobId) with
    | none => .ok (none, s)
    | some j =>
      let j2 := upd j
      .ok (some j2,
        { s with jobs := s.jobs.map (fun k => if k.id == jobId then j2 else k) })
  else .error ()

/-! ## HTTP responses -/

/-- The JSON bodies the embedded handlers produce.  `errMsg` stands for every
error envelope (`{success: false, message}` as well as `{message, error}`);
`updated` stands for the `{message, job}` / `{success, message, job}` success
envelopes of the two update handlers. -/
inductive Body where
  | savedJob (j : Job)
  | errMsg (message : String)
  | jobList (js : List Job)
  | jobOk (j : Job)
  | updated (message : String) (j : Job)
  | coordOk (c : Option CoordPair)
  | summary (inTransit pending urgent deliveredToday : Nat)
deriving DecidableEq, Repr

/-- An HTTP response: status code and JSON body. -/
structure HttpResponse where
  status : Nat
  body : Body
deriving DecidableEq, Repr

/-! ## jobController.createJob -/

/-- `validateNepalCoordinates` (`src/controllers/jobController.js` lines
42–49): throws when either endpoint fails the geofence check; the throw is
modelled as `Except.error` with the thrown message. -/
def validateNepalCoordinates (pickupInfo dropoffInfo : ContactPoint) :
    Except String Unit :=
  let pickupValid := isWithinNepal pickupInfo.latitude pickupInfo.longitude
  let dropoffValid := isWithinNepal dropoffInfo.latitude dropoffInfo.longitude
  if !pickupValid || !dropoffValid then
    .error "Pickup or Dropoff coordinates must be within Nepal."
  else .ok ()

/-- The request body of `createJob`. -/
structure CreateJobBody where
  driverInfo : DriverInfo
  pickupInfo : ContactPoint
  dropoffInfo : ContactPoint
  currentCoords : Option CoordPair
  status : Option String
  note : Option String
  addOns : Option AddOns
deriving DecidableEq, Repr

/-- The top-level paths of the registered JobSchema
(`src/models/job.model.js`, the schema actually passed to
`mongoose.model('Job', JobSchema)`) that are `required: true` and carry no
default, so a document must supply them for `save()` to succeed.  (`status`,
`progress` and `lastUpdate` are also required but defaulted; `currentCoords`
is required and is the one required path the controller can set, hence it is
not listed.) -/
def jobSchemaRequiredNoDefault : List String :=
  ["id", "distanceRemaining", "pickupLocation", "deliveryLocation",
   "currentLocation", "pickupTime", "eta", "pickupCoords", "deliveryCoords",
   "assignedTo"]

/-- The top-level paths of the document `createJob` builds
(`new Job({driverInfo, pickupInfo, dropoffInfo, currentCoords, status, note,
addOns})`) that exist on the registered schema: Mongoose strict mode (the
default) silently drops `pickupInfo`, `dropoffInfo`, `note` and `addOns`,
which that schema does not declare. -/
def createJobDocumentPaths : List String := ["driverInfo", "currentCoords", "status"]

/-- The required-without-default schema paths the controller's document does
not supply.  This list is nonempty, so every `newJob.save()` issued by
`createJob` raises a ValidationError. -/
def jobSaveMissingPaths : List String :=
  jobSchemaRequiredNoDefault.filter (fun p => !(p ∈ createJobDocumentPaths))

/-- `new Job({...}).save()` against the registered JobSchema: Mongoose applies
the schema defaults (`status` defaults to `pending`), then runs the schema
validators — every `required` path must be set and `status` must be a member
of the schema `enum`.  When validation passes, the saved document gets a fresh
`_id` and the `timestamps`; otherwise save raises a ValidationError.  For the
document `createJob` builds, `jobSaveMissingPaths` is nonempty (the controller
was written against a different Job shape than the registered schema), so the
success branch is never reached: the save always fails. -/
def jobSave (s : Store) (b : CreateJobBody) (now : Nat) :
    Except String (Job × Store) :=
  let st := b.status.getD "pending"
  if jobSaveMissingPaths.isEmpty && decide (st ∈ schemaStatusEnum) then
    let j : Job :=
      { id := freshObjectId s.nextId
        driverInfo := b.driverInfo
        pickupInfo := b.pickupInfo
        dropoffInfo := b.dropoffInfo
        currentCoords := b.currentCoords
        status := st
        note := b.note
        addOns := b.addOns
        isUrgent := false
        createdAt := now
        updatedAt := now }
    .ok (j, { s with jobs := s.jobs ++ [j], nextId := s.nextId + 1 })
  else .error "Job validation failed"

/-- `createJob` (`src/controllers/jobController.js` lines 70–115): validate the
driver id shape, resolve the driver and check its role, run the geofence
validator (whose throw lands in the catch block as a 500), then save.  `now`
is the wall-clock instant of the request. -/
def createJob (s : Store) (b : CreateJobBody) (now : Nat) :
    HttpResponse × Store :=
  if !(isValidObjectId b.driverInfo.id) then
    (⟨400, .errMsg "Invalid driver ID"⟩, s)
  else
    match s.users.find? (fun u => u.id == b.driverInfo.id) with
    | none => (⟨400, .errMsg "Invalid or Non-driver User"⟩, s)
    | some driver =>
      if driver.role != "driver" then
        (⟨400, .errMsg "Invalid or Non-driver User"⟩, s)
      else
        match validateNepalCoordinates b.pickupInfo b.dropoffInfo with
        | .error m => (⟨500, .errMsg ("Failed to create job: " ++ m)⟩, s)
        | .ok _ =>
          match jobSave s b now with
          | .error m => (⟨500, .errMsg ("Failed to create job: " ++ m)⟩, s)
          | .ok (j, s2) => (⟨201, .savedJob j⟩, s2)

/-! ## jobController.getJobById and updateStatus -/

/-- `getJobById` (`src/controllers/jobController.js` lines 208–229): 500 on a
CastError, 404 when the id resolves to no document, 200 with the job
otherwise.  Pure read. -/
def getJobById (s : Store) (jobId : String) : HttpResponse :=
  match findJobById s jobId with
  | .error _ => ⟨500, .errMsg "Internal Server Error"⟩
  | .ok none => ⟨404, .errMsg "Job Not Found"⟩
  | .ok (some job) => ⟨200, .jobOk job⟩

/-- `updateStatus` (`src/controllers/jobController.js` lines 245–280): reject a
missing status or one outside the five-element list with 400, then
`findByIdAndUpdate` — CastError lands in the catch block as 500, a vanished id
is 404, otherwise 200 with the updated job. -/
def updateStatus (s : Store) (jobId : String) (status : Option String)
    (now : Nat) : HttpResponse × Store :=
  match status with
  | none => (⟨400, .errMsg "Invalid or missing status"⟩, s)
  | some st =>
    if st ∉ updateStatusAllowed then
      (⟨400, .errMsg "Invalid or missing status"⟩, s)
    else
      match findJobByIdAndUpdate s jobId
          (fun j => { j with status := st, updatedAt := now }) with
      | .error _ => (⟨500, .errMsg "Internal Server error"⟩, s)
      | .ok (none, s2) => (⟨404, .errMsg "Job Not Found"⟩, s2)
      | .ok (some j, s2) => (⟨200, .updated "job Updated Successfully" j⟩, s2)

/-! ## userController.updateLiveCoordinate and getLiveCoordinate -/

/-- `updateLiveCoordinate` (`src/controllers/userController.js` lines 343–373):
`findByIdAndUpdate` replacing the `currentCoords` field wholesale with the
body value; CastError → 500, missing job → 404, otherwise 200 with the
updated job. -/
def updateLiveCoordinate (s : Store) (jobId : String) (currentCoords : CoordPair)
    (now : Nat) : HttpResponse × Store :=
  match findJobByIdAndUpdate s jobId
      (fun j => { j with currentCoords := some currentCoords, updatedAt := now }) with
  | .error _ => (⟨500, .errMsg "Internal Server Error"⟩, s)
  | .ok (none, s2) => (⟨404, .errMsg "Job not found"⟩, s2)
  | .ok (some j, s2) => (⟨200, .updated "Job updated successfully" j⟩, s2)

/-- `getLiveCoordinate` (`src/controllers/userController.js` lines 387–408):
returns the `currentCoords` snapshot of the job.  Pure read. -/
def getLiveCoordinate (s : Store) (jobId : String) : HttpResponse :=
  match findJobById s jobId with
  | .error _ => ⟨500, .errMsg "internal server error"⟩
  | .ok none => ⟨404, .errMsg "Job Not found"⟩
  | .ok (some job) => ⟨200, .coordOk job.currentCoords⟩

/-! ## jobController.getJobs (listJobs) -/

/-- Does `pat` occur at the head of `text`? -/
def charsStartWith : List Char → List Char → Bool
  | [], _ => true
  | _ :: _, [] => false
  | p :: ps, t :: ts => p == t && charsStartWith ps ts

/-- Does `pat` occur in `text` as a contiguous run? -/
def charsContain (pat : List Char) : List Char → Bool
  | [] => pat.isEmpty
  | t :: ts => charsStartWith pat (t :: ts) || charsContain pat ts

/-- `new RegExp(search, 'i')` — syntactic validity of the pattern.  The
constructor throws a SyntaxError on an unmatched `(` / `)` or on a quantifier
(`*`, `+`, `?`) with nothing to repeat; this models exactly those rules (the
patterns this development evaluates use no escapes or character classes). -/
def jsRegexSyntaxOk (s : String) : Bool :=
  go s.toList 0 false
where
  go : List Char → Nat → Bool → Bool
    | [], depth, _ => depth == 0
    | c :: rest, depth, atomBefore =>
      if c == '(' then go rest (depth + 1) false
      else if c == ')' then decide (0 < depth) && go rest (depth - 1) true
      else if c == '*' || c == '+' || c == '?' then atomBefore && go rest depth false
      else go rest depth true

/-- The compiled pattern tested case-insensitively (flag `i`) against a field.
For a pattern free of regex metacharacters — the only compiling patterns this
development evaluates — the JS semantics is exactly case-insensitive literal
substring occurrence, which is what this models. -/
def regexTestCI (pattern text : String) : Bool :=
  charsContain pattern.toLower.toList text.toLower.toList

/-- The `$or` clause of `getJobs`: the six searched text fields.  A missing
optional field (`email`) matches nothing, as in MongoDB. -/
def searchMatches (pat : String) (j : Job) : Bool :=
  regexTestCI pat j.pickupInfo.name ||
  regexTestCI pat j.dropoffInfo.name ||
  (j.pickupInfo.email.elim false (fun e => regexTestCI pat e)) ||
  regexTestCI pat j.dropoffInfo.phone ||
  regexTestCI pat j.driverInfo.name ||
  regexTestCI pat j.driverInfo.phone

/-- Insert into a list kept in descending `createdAt` order. -/
def insertByCreatedAtDesc (j : Job) : List Job → List Job
  | [] => [j]
  | k :: rest =>
    if k.createdAt ≤ j.createdAt then j :: k :: rest
    else k :: insertByCreatedAtDesc j rest

/-- `.sort({createdAt: -1})`: most recent first. -/
def orderByCreatedAtDesc : List Job → List Job
  | [] => []
  | j :: rest => insertByCreatedAtDesc j (orderByCreatedAtDesc rest)

/-- `getJobs` (`src/controllers/jobController.js` lines 130–163): optional
exact `status` filter and optional `search` term.  JS `if (status)` /
`if (search)` treat the empty string as falsy.  The raw search term is passed
to `new RegExp(search, 'i')`; when the constructor throws, the catch block
answers 500.  Pure read. -/
def getJobs (s : Store) (status search : Option String) : HttpResponse :=
  let statusFilter : Job → Bool := fun j =>
    match status with
    | some st => if st.isEmpty then true else j.status == st
    | none => true
  match search with
  | some pat =>
    if pat.isEmpty then
      ⟨200, .jobList (orderByCreatedAtDesc (s.jobs.filter statusFilter))⟩
    else if jsRegexSyntaxOk pat then
      ⟨200, .jobList (orderByCreatedAtDesc
        (s.jobs.filter (fun j => statusFilter j && searchMatches pat j)))⟩
    else ⟨500, .errMsg "Failed to fetch jobs"⟩
  | none => ⟨200, .jobList (orderByCreatedAtDesc (s.jobs.filter statusFilter))⟩

/-! ## getSummary -/

/-- Modelled from the spec: `getSummary` is routed in `src/routes/jobs.js`
(`router.get('/summary', jobController.getSummary)`) but its implementation is
absent from the sources.  Spec §4.2: four independent counts — jobs with
`status = in-transit`; jobs with `status = pending`; jobs flagged urgent;
jobs created since the start of the current calendar day in server-local
time.  `startOfToday` is that day-start instant. -/
def getSummary (s : Store) (startOfToday : Nat) : HttpResponse :=
  ⟨200, .summary
    (s.jobs.countP (fun j => j.status == "in-transit"))
    (s.jobs.countP (fun j => j.status == "pending"))
    (s.jobs.countP (fun j => j.isUrgent))
    (s.jobs.countP (fun j => startOfToday ≤ j.createdAt))⟩

/-! ## Concrete fixtures used by witnesses and counterexamples -/

/-- A driver user with a well-formed ObjectId. -/
def exDriver : User := { id := "aaaaaaaaaaaaaaaaaaaaaaaa", role := "driver" }

/-- An in-region contact point (Kathmandu-ish). -/
def exPickup : ContactPoint :=
  { name := "Pickup Point", phone := "111", email := none
    latitude := .num 27, longitude := .num 85 }

/-- An out-of-region contact point (the spec's example 40.0 / 100.0). -/
def exOutside : ContactPoint :=
  { name := "Far Away", phone := "222", email := none
    latitude := .num 40, longitude := .num 100 }

/-- A store holding only the driver. -/
def exStoreDriverOnly : Store := { users := [exDriver], jobs := [], nextId := 0 }

/-- A createJob body whose dropoff lies outside the region. -/
def exBodyOutside : CreateJobBody :=
  { driverInfo := { id := "aaaaaaaaaaaaaaaaaaaaaaaa", name := "Dan", phone := "333" }
    pickupInfo := exPickup, dropoffInfo := exOutside
    currentCoords := none, status := none, note := none, addOns := none }

/-- A fully valid createJob body. -/
def exBodyValid : CreateJobBody := { exBodyOutside with dropoffInfo := exPickup }

/-- A stored job (as `jobSave` would produce it) used by the update claims. -/
def exJob : Job :=
  { id := freshObjectId 0
    driverInfo := { id := "aaaaaaaaaaaaaaaaaaaaaaaa", name := "Dan", phone := "333" }
    pickupInfo := exPickup, dropoffInfo := exPickup
    currentCoords := none, status := "pending", note := none, addOns := none
    isUrgent := false, createdAt := 0, updatedAt := 0 }

/-- A store holding the driver and one job. -/
def exStoreOneJob : Store := { users := [exDriver], jobs := [exJob], nextId := 1 }

/-- A sequence of `updateCurrentCoordinate` calls against one job, each with
its coordinate pair and wall-clock instant, applied in order. -/
def applyCoordUpdates (jobId : String) : Store → List (CoordPair × Nat) → Store
  | s, [] => s
  | s, c :: rest =>
    applyCoordUpdates jobId (updateLiveCoordinate s jobId c.1 c.2).2 rest

/-- A stored job whose pickup name literally contains the searched characters. -/
def exJobParen : Job :=
  { exJob with id := freshObjectId 1
               pickupInfo := { exPickup with name := "Depot (main)" } }

/-- The one-job store plus the parenthesised-name job. -/
def exStoreSearch : Store :=
  { exStoreOneJob with jobs := exStoreOneJob.jobs ++ [exJobParen], nextId := 2 }

/-! ## Theorems -/

theorem bounds_are_the_source_literals :
    Rat.divInt 26347 1000 = (26.347 : ℚ) ∧ Rat.divInt 30447 1000 = (30.447 : ℚ) ∧
    Rat.divInt 80058 1000 = (80.058 : ℚ) ∧ Rat.divInt 88201 1000 = (88.201 : ℚ) := by
  refine ⟨?_, ?_, ?_, ?_⟩ <;> rw [Rat.divInt_eq_div] <;> norm_num

/-- Claim C2: for every latitude/longitude input pair, `isWithinNepal` returns
`true` if and only if both inputs parse as decimal numbers with the latitude in
[26.347, 30.447] and the longitude in [80.058, 88.201], boundaries inclusive;
on non-numeric or missing input it returns `false` (the function is total, so
it never throws). -/
theorem isWithinNepal_iff_in_box (lat lon : JSVal) :
    isWithinNepal lat lon = true ↔
      ∃ la lo : ℚ, parseFloat lat = some la ∧ parseFloat lon = some lo ∧
        26.347 ≤ la ∧ la ≤ 30.447 ∧ 80.058 ≤ lo ∧ lo ≤ 88.201 := by
  obtain ⟨e1, e2, e3, e4⟩ := bounds_are_the_source_literals
  unfold isWithinNepal
  rw [e1, e2, e3, e4]
  cases hla : parseFloat lat with
  | none => simp [hla]
  | some la =>
    cases hlo : parseFloat lon with
    | none => simp [hlo]
    | some lo =>
      simp only [Bool.and_eq_true, decide_eq_true_eq, Option.some.injEq]
      constructor
      · rintro ⟨⟨⟨h1, h2⟩, h3⟩, h4⟩
        exact ⟨la, lo, rfl, rfl, h1, h2, h3, h4⟩
      · rintro ⟨la2, lo2, rfl2, rfl3, h1, h2, h3, h4⟩
        cases rfl2
        cases rfl3
        exact ⟨⟨⟨h1, h2⟩, h3⟩, h4⟩

theorem hexChar_isHexDigit (n : Nat) : isHexDigitChar (hexChar n) = true := by
  unfold hexChar
  split <;> decide

theorem hexChars_length (k n : Nat) : (hexChars k n).length = k := by
  induction k generalizing n with
  | zero => rfl
  | succ k ih => simp [hexChars, ih]

theorem hexChars_all_hex (k n : Nat) :
    (hexChars k n).all isHexDigitChar = true := by
  induction k generalizing n with
  | zero => rfl
  | succ k ih => simp [hexChars, List.all_append, ih, hexChar_isHexDigit]

theorem isValidObjectId_fresh (n : Nat) :
    isValidObjectId (freshObjectId n) = true := by
  simp [isValidObjectId, freshObjectId, String.length, String.toList,
    hexChars_length, hexChars_all_hex]

/-! ## Claim C1 -/

theorem validateNepalCoordinates_error (p d : ContactPoint)
    (h : ¬(isWithinNepal p.latitude p.longitude = true ∧
           isWithinNepal d.latitude d.longitude = true)) :
    validateNepalCoordinates p d =
      .error "Pickup or Dropoff coordinates must be within Nepal." := by
  unfold validateNepalCoordinates
  cases hp : isWithinNepal p.latitude p.longitude <;>
    cases hd : isWithinNepal d.latitude d.longitude <;> simp_all

/-- Claim C1: whenever at least one of the pickup/dropoff coordinates lies
outside the configured bounding box, `createJob` answers an error response
(400 or 500, never the 201 success), and the store after the call equals the
store before it — no Job is persisted. -/
theorem createJob_out_of_region_rejected (s : Store) (b : CreateJobBody)
    (now : Nat)
    (h : ¬(isWithinNepal b.pickupInfo.latitude b.pickupInfo.longitude = true ∧
           isWithinNepal b.dropoffInfo.latitude b.dropoffInfo.longitude = true)) :
    ((createJob s b now).1.status = 400 ∨ (createJob s b now).1.status = 500) ∧
      (createJob s b now).2 = s := by
  have hv := validateNepalCoordinates_error b.pickupInfo b.dropoffInfo h
  unfold createJob
  cases hid : isValidObjectId b.driverInfo.id with
  | false => simp
  | true =>
    simp only [Bool.not_true, Bool.false_eq_true, if_false]
    cases hf : s.users.find? (fun u => u.id == b.driverInfo.id) with
    | none => simp
    | some driver =>
      by_cases hrole : driver.role = "driver"
      · simp [hrole, hv]
      · simp [hrole]

/-- Witness for C1 at the spec's example: dropoff latitude 40, longitude 100
with a valid driver — the call errors and the store is untouched. -/
theorem createJob_out_of_region_rejected_witness :
    ((createJob exStoreDriverOnly exBodyOutside 0).1.status = 400 ∨
      (createJob exStoreDriverOnly exBodyOutside 0).1.status = 500) ∧
      (createJob exStoreDriverOnly exBodyOutside 0).2 = exStoreDriverOnly :=
  createJob_out_of_region_rejected exStoreDriverOnly exBodyOutside 0 (by decide)

/-! ## Helper lemmas about the update paths -/

theorem find?_map_update (jobs : List Job) (jobId : String) (j j2 : Job)
    (hid2 : (j2.id == jobId) = true)
    (h : jobs.find? (fun k => k.id == jobId) = some j) :
    (jobs.map (fun k => if k.id == jobId then j2 else k)).find?
      (fun k => k.id == jobId) = some j2 := by
  induction jobs with
  | nil => simp at h
  | cons a rest ih =>
    cases ha : (a.id == jobId) with
    | true =>
      simp only [List.map_cons, List.find?_cons, ha, if_true]
      simp [hid2]
    | false =>
      simp only [List.find?_cons, ha] at h
      simp only [List.map_cons, List.find?_cons, ha, if_false]
      simpa [ha] using ih h

/-- `updateStatus` on a valid status, a well-formed id and a present job:
the 200 response and the persisted document. -/
theorem updateStatus_found (s : Store) (jobId : String) (v : String) (now : Nat)
    (j : Job) (hv : v ∈ updateStatusAllowed)
    (hid : isValidObjectId jobId = true)
    (h : s.jobs.find? (fun k => k.id == jobId) = some j) :
    updateStatus s jobId (some v) now =
      (⟨200, .updated "job Updated Successfully"
          { j with status := v, updatedAt := now }⟩,
        { s with jobs := s.jobs.map (fun k =>
            if k.id == jobId then { j with status := v, updatedAt := now } else k) }) := by
  unfold updateStatus findJobByIdAndUpdate
  simp [hv, hid, h]

/-- `updateLiveCoordinate` on a well-formed id and a present job: the 200
response, and the stored document now carries exactly the submitted pair. -/
theorem updateLiveCoordinate_found (s : Store) (jobId : String) (j : Job)
    (c : CoordPair) (now : Nat)
    (hid : isValidObjectId jobId = true)
    (h : s.jobs.find? (fun k => k.id == jobId) = some j) :
    updateLiveCoordinate s jobId c now =
      (⟨200, .updated "Job updated successfully"
          { j with currentCoords := some c, updatedAt := now }⟩,
        { s with jobs := s.jobs.map (fun k =>
            if k.id == jobId then { j with currentCoords := some c, updatedAt := now }
            else k) }) := by
  unfold updateLiveCoordinate findJobByIdAndUpdate
  simp [hid, h]

theorem find?_id_of_find? (jobs : List Job) (jobId : String) (j : Job)
    (h : jobs.find? (fun k => k.id == jobId) = some j) : (j.id == jobId) = true := by
  simpa using List.find?_some h

/-! ## Claim C3 (corrected) -/

/-- Claim C3 as stated is false at a concrete input: with the valid status
`pending` and the malformed id `not-an-objectid` — which resolves to no stored
job — `updateStatus` answers the 500 internal error, not the 404
`JobNotFound`. -/
theorem updateStatus_malformed_id_counterexample :
    ("pending" ∈ updateStatusAllowed) ∧
    exStoreOneJob.jobs.find? (fun j => j.id == "not-an-objectid") = none ∧
    (updateStatus exStoreOneJob "not-an-objectid" (some "pending") 7).1.status = 500 ∧
    ¬((updateStatus exStoreOneJob "not-an-objectid" (some "pending") 7).1.status = 404) := by
  decide

/-- Claim C3 (amended): a `newStatus` outside the five enumerated values is
rejected with 400 regardless of the job (a missing status likewise); with a
valid status, a malformed jobId answers the 500 internal error, a well-formed
jobId matching no stored job answers 404 `JobNotFound` with the store
untouched, and a well-formed jobId matching a stored job answers 200 with the
job whose status was set to `newStatus`, which is persisted. -/
theorem updateStatus_amended_characterization (s : Store) (jobId : String)
    (v : String) (now : Nat) :
    (v ∉ updateStatusAllowed →
      updateStatus s jobId (some v) now =
        (⟨400, .errMsg "Invalid or missing status"⟩, s))
    ∧ (updateStatus s jobId none now =
        (⟨400, .errMsg "Invalid or missing status"⟩, s))
    ∧ (v ∈ updateStatusAllowed → isValidObjectId jobId = false →
      updateStatus s jobId (some v) now =
        (⟨500, .errMsg "Internal Server error"⟩, s))
    ∧ (v ∈ updateStatusAllowed → isValidObjectId jobId = true →
      s.jobs.find? (fun j => j.id == jobId) = none →
      updateStatus s jobId (some v) now = (⟨404, .errMsg "Job Not Found"⟩, s))
    ∧ (v ∈ updateStatusAllowed → isValidObjectId jobId = true →
      ∀ j, s.jobs.find? (fun k => k.id == jobId) = some j →
        (updateStatus s jobId (some v) now).1 =
          ⟨200, .updated "job Updated Successfully"
            { j with status := v, updatedAt := now }⟩
        ∧ (updateStatus s jobId (some v) now).2.jobs.find?
            (fun k => k.id == jobId) =
            some { j with status := v, updatedAt := now }) := by
  refine ⟨?_, ?_, ?_, ?_, ?_⟩
  · intro hv
    unfold updateStatus
    simp [hv]
  · unfold updateStatus
    rfl
  · intro hv hid
    unfold updateStatus findJobByIdAndUpdate
    simp [hv, hid]
  · intro hv hid hnone
    unfold updateStatus findJobByIdAndUpdate
    simp [hv, hid, hnone]
  · intro hv hid j h
    have hjid := find?_id_of_find? s.jobs jobId j h
    rw [updateStatus_found s jobId v now j hv hid h]
    exact ⟨rfl, find?_map_update s.jobs jobId j _ hjid h⟩

/-- Witness for the amended C3, at the `JobNotFound` branch: a valid status and
a well-formed id over a store with no matching job answers 404. -/
theorem updateStatus_amended_characterization_witness :
    updateStatus exStoreDriverOnly "aaaaaaaaaaaaaaaaaaaaaaaa" (some "in-transit") 3 =
      (⟨404, .errMsg "Job Not Found"⟩, exStoreDriverOnly) :=
  (updateStatus_amended_characterization exStoreDriverOnly
      "aaaaaaaaaaaaaaaaaaaaaaaa" "in-transit" 3).2.2.2.1
    (by decide) (by decide) (by decide)

/-! ## Claim C9 -/

/-- Claim C9: `updateStatus` accepts and persists `cancelled` although the Job
schema enumerates only pending / in-transit / delayed / delivered: on any
stored job, the call answers 200, and the stored document afterwards carries
the status `cancelled`, which is not a member of the schema enum — the update
path bypasses schema validation. -/
theorem updateStatus_cancelled_violates_schema_enum (s : Store) (jobId : String)
    (j : Job) (now : Nat)
    (hid : isValidObjectId jobId = true)
    (h : s.jobs.find? (fun k => k.id == jobId) = some j) :
    "cancelled" ∉ schemaStatusEnum ∧
    (updateStatus s jobId (some "cancelled") now).1.status = 200 ∧
    (updateStatus s jobId (some "cancelled") now).2.jobs.find?
      (fun k => k.id == jobId) =
      some { j with status := "cancelled", updatedAt := now } := by
  have hjid := find?_id_of_find? s.jobs jobId j h
  rw [updateStatus_found s jobId "cancelled" now j (by decide) hid h]
  exact ⟨by decide, rfl, find?_map_update s.jobs jobId j _ hjid h⟩

/-- Witness for C9: on the one-job store, `cancelled` is accepted and
persisted. -/
theorem updateStatus_cancelled_violates_schema_enum_witness :
    "cancelled" ∉ schemaStatusEnum ∧
    (updateStatus exStoreOneJob exJob.id (some "cancelled") 9).1.status = 200 ∧
    (updateStatus exStoreOneJob exJob.id (some "cancelled") 9).2.jobs.find?
      (fun k => k.id == exJob.id) =
      some { exJob with status := "cancelled", updatedAt := 9 } :=
  updateStatus_cancelled_violates_schema_enum exStoreOneJob exJob.id exJob 9
    (by decide) (by decide)

/-! ## Claim C10 -/

/-- Claim C10: a jobId that is not a well-formed store identifier never yields
the 404 `JobNotFound` of `getJobById`, `updateStatus` (with a valid status) or
`updateLiveCoordinate`: all three answer their generic 500 internal-error
response (the CastError lands in the catch block), so the 404 is produced only
for well-formed identifiers that do not resolve. -/
theorem malformed_jobId_yields_500_not_404 (s : Store) (jobId : String)
    (now : Nat) (c : CoordPair) (v : String)
    (h : isValidObjectId jobId = false) (hv : v ∈ updateStatusAllowed) :
    getJobById s jobId = ⟨500, .errMsg "Internal Server Error"⟩ ∧
    (updateStatus s jobId (some v) now).1 =
      ⟨500, .errMsg "Internal Server error"⟩ ∧
    (updateLiveCoordinate s jobId c now).1 =
      ⟨500, .errMsg "Internal Server Error"⟩ := by
  refine ⟨?_, ?_, ?_⟩
  · unfold getJobById findJobById
    simp [h]
  · unfold updateStatus findJobByIdAndUpdate
    simp [hv, h]
  · unfold updateLiveCoordinate findJobByIdAndUpdate
    simp [h]

/-- Witness for C10 at the malformed id `xyz`. -/
theorem malformed_jobId_yields_500_not_404_witness :
    getJobById exStoreOneJob "xyz" = ⟨500, .errMsg "Internal Server Error"⟩ ∧
    (updateStatus exStoreOneJob "xyz" (some "delivered") 4).1 =
      ⟨500, .errMsg "Internal Server error"⟩ ∧
    (updateLiveCoordinate exStoreOneJob "xyz"
        ⟨.num 27, .num 85⟩ 4).1 =
      ⟨500, .errMsg "Internal Server Error"⟩ :=
  malformed_jobId_yields_500_not_404 exStoreOneJob "xyz" 4
    ⟨.num 27, .num 85⟩ "delivered" (by decide) (by decide)

/-! ## Claim C4 -/

theorem applyCoordUpdates_find (jobId : String) (cs : List (CoordPair × Nat)) :
    ∀ (s : Store) (j : Job) (cl : CoordPair) (tl : Nat),
      isValidObjectId jobId = true →
      s.jobs.find? (fun k => k.id == jobId) = some j →
      cs.getLast? = some (cl, tl) →
      (applyCoordUpdates jobId s cs).jobs.find? (fun k => k.id == jobId) =
        some { j with currentCoords := some cl, updatedAt := tl } := by
  induction cs with
  | nil => intro s j cl tl _ _ hlast; simp at hlast
  | cons c rest ih =>
    intro s j cl tl hid h hlast
    have step : (updateLiveCoordinate s jobId c.1 c.2).2.jobs.find?
        (fun k => k.id == jobId) =
        some { j with currentCoords := some c.1, updatedAt := c.2 } := by
      rw [updateLiveCoordinate_found s jobId j c.1 c.2 hid h]
      exact find?_map_update s.jobs jobId j _ (find?_id_of_find? s.jobs jobId j h) h
    cases rest with
    | nil =>
      simp only [List.getLast?_singleton, Option.some.injEq] at hlast
      cases hlast
      simpa [applyCoordUpdates] using step
    | cons c2 rest2 =>
      have hlast2 : (c2 :: rest2).getLast? = some (cl, tl) := by
        simpa [List.getLast?_cons_cons] using hlast
      have := ih (updateLiveCoordinate s jobId c.1 c.2).2
        { j with currentCoords := some c.1, updatedAt := c.2 } cl tl hid step hlast2
      simpa [applyCoordUpdates] using this

/-- Claim C4: for every existing job and every nonempty sequence of
`updateCurrentCoordinate` calls against it, a subsequent
`getCurrentCoordinate` returns exactly the pair passed to the last update:
each update replaces the `currentCoords` field wholesale, whatever it held
before. -/
theorem updateLiveCoordinate_last_writer_wins (jobId : String)
    (cs : List (CoordPair × Nat)) (s : Store) (j : Job) (cl : CoordPair)
    (tl : Nat)
    (hid : isValidObjectId jobId = true)
    (h : s.jobs.find? (fun k => k.id == jobId) = some j)
    (hlast : cs.getLast? = some (cl, tl)) :
    getLiveCoordinate (applyCoordUpdates jobId s cs) jobId =
      ⟨200, .coordOk (some cl)⟩ := by
  have hfind := applyCoordUpdates_find jobId cs s j cl tl hid h hlast
  unfold getLiveCoordinate findJobById
  simp [hid, hfind]

/-- Witness for C4: two successive updates on the stored job; the read returns
the second pair (latitude 28, longitude 84), not the first. -/
theorem updateLiveCoordinate_last_writer_wins_witness :
    getLiveCoordinate
      (applyCoordUpdates exJob.id exStoreOneJob
        [(⟨.num 27, .num 85⟩, 1), (⟨.num 28, .num 84⟩, 2)]) exJob.id =
      ⟨200, .coordOk (some ⟨.num 28, .num 84⟩)⟩ :=
  updateLiveCoordinate_last_writer_wins exJob.id
    [(⟨.num 27, .num 85⟩, 1), (⟨.num 28, .num 84⟩, 2)] exStoreOneJob exJob
    ⟨.num 28, .num 84⟩ 2 (by decide) (by decide) (by decide)

/-! ## Claim C5 (code bug) -/

/-- Claim C5 states the spec's intended round-trip, but the code breaks it:
the controller builds its document against a Job shape the registered schema
does not declare, so `newJob.save()` fails schema validation
(`jobSaveMissingPaths` is nonempty) on every input; `createJob` never answers
201 and never persists a Job.  In particular, at the claim's valid input —
well-formed driver id resolving to a driver-role user, in-region pickup and
dropoff, status omitted — it answers the 500 validation failure with the
store unchanged, instead of succeeding and round-tripping through
`getJobById`. -/
theorem createJob_roundtrip_code_bug (s : Store) (b : CreateJobBody)
    (now : Nat) :
    ((createJob s b now).1.status ≠ 201 ∧ (createJob s b now).2 = s) ∧
    (createJob exStoreDriverOnly exBodyValid 5).1 =
      ⟨500, .errMsg "Failed to create job: Job validation failed"⟩ := by
  refine ⟨?_, by decide⟩
  have hmp : jobSaveMissingPaths.isEmpty = false := rfl
  have hsave : jobSave s b now = .error "Job validation failed" := by
    unfold jobSave
    simp [hmp]
  unfold createJob
  cases hid : isValidObjectId b.driverInfo.id with
  | false => simp
  | true =>
    simp only [Bool.not_true, Bool.false_eq_true, if_false]
    cases hf : s.users.find? (fun u => u.id == b.driverInfo.id) with
    | none => simp
    | some driver =>
      by_cases hrole : driver.role = "driver"
      · cases hv : validateNepalCoordinates b.pickupInfo b.dropoffInfo with
        | error m => simp [hrole, hv]
        | ok u2 => simp [hrole, hv, hsave]
      · simp [hrole]

/-! ## Claim C8 (corrected) -/

/-- Claim C8 as stated is false at a concrete input: the spec's example
request (dropoff latitude 40, longitude 100) with a valid driver is answered
with HTTP status 500, not 400. -/
theorem createJob_geofence_counterexample :
    (createJob exStoreDriverOnly exBodyOutside 0).1.status = 500 ∧
    ¬((createJob exStoreDriverOnly exBodyOutside 0).1.status = 400) := by
  decide

/-- Claim C8 (amended): for every createJob request whose pickup or dropoff
lies outside the configured region and whose driver reference passes
validation (so the geofence check is reached), the error response carries HTTP
status 500 — the thrown geofence error lands in the generic catch block — not
400. -/
theorem createJob_geofence_status_500 (s : Store) (b : CreateJobBody)
    (now : Nat) (u : User)
    (hid : isValidObjectId b.driverInfo.id = true)
    (hu : s.users.find? (fun x => x.id == b.driverInfo.id) = some u)
    (hrole : u.role = "driver")
    (h : ¬(isWithinNepal b.pickupInfo.latitude b.pickupInfo.longitude = true ∧
           isWithinNepal b.dropoffInfo.latitude b.dropoffInfo.longitude = true)) :
    (createJob s b now).1 =
      ⟨500, .errMsg
        "Failed to create job: Pickup or Dropoff coordinates must be within Nepal."⟩ := by
  have hv := validateNepalCoordinates_error b.pickupInfo b.dropoffInfo h
  unfold createJob
  simp [hid, hu, hrole, hv]

/-- Witness for the amended C8 at the spec's example coordinates. -/
theorem createJob_geofence_status_500_witness :
    (createJob exStoreDriverOnly exBodyOutside 2).1 =
      ⟨500, .errMsg
        "Failed to create job: Pickup or Dropoff coordinates must be within Nepal."⟩ :=
  createJob_geofence_status_500 exStoreDriverOnly exBodyOutside 2 exDriver
    (by decide) (by decide) (by decide) (by decide)

/-! ## Claim C7 (code bug) -/

/-- Claim C7 is violated by the code: `getJobs` hands the raw search term to
`new RegExp(search, 'i')`, so the terms `(` and `*` — though they occur
literally in a stored job's searched fields — make the constructor throw and
the handler answer the 500 internal-error response instead of matching them
as literal substrings. -/
theorem getJobs_search_special_char_500 :
    getJobs exStoreSearch none (some "(") =
      ⟨500, .errMsg "Failed to fetch jobs"⟩ ∧
    getJobs exStoreSearch none (some "*") =
      ⟨500, .errMsg "Failed to fetch jobs"⟩ ∧
    charsContain "(".toList "Depot (main)".toList = true := by
  decide

/-! ## Claim C6 (modelled from the spec) -/

/-- Claim C6: `getSummary` returns exactly four counts over the job
collection — the jobs with status `in-transit`, the jobs with status
`pending`, the jobs flagged urgent, and the jobs created since the start of
the current calendar day — each agreeing with the length of the
correspondingly filtered job list. -/
theorem getSummary_four_counts (s : Store) (startOfToday : Nat) :
    getSummary s startOfToday = ⟨200, .summary
      (s.jobs.filter (fun j => j.status == "in-transit")).length
      (s.jobs.filter (fun j => j.status == "pending")).length
      (s.jobs.filter (fun j => j.isUrgent)).length
      (s.jobs.filter (fun j => startOfToday ≤ j.createdAt)).length⟩ := by
  simp [getSummary, List.countP_eq_length_filter]

end Logitracker
